import Mathlib

/-!
Verification of the `Timeout` guard of `my_signals` (`src/__main__.py`).

The program is a SIGALRM-based timeout guard: a class `Timeout` with fields
`timer_sec : int` and `is_rising : bool`, usable as a context manager
(`__enter__`/`__exit__`), as a decorator (`__call__`), and as an async
context manager (`__aenter__`/`__aexit__`, which merely delegate to the
synchronous methods).

The shallow embedding below models:
* the process-wide alarm source (`signal.alarm`) as a `TimerState` holding
  the number of seconds until the pending alarm fires, `0` meaning none;
* Python exceptions by the inductive `Exc` (the guard's own
  `TimeoutException` versus any other exception);
* a guarded unit of synchronous work by `Work`: the time at which it would
  finish and the outcome (return value or raised exception) it would
  produce if it is not interrupted first;
* the context-manager activation `Timeout.runWith`, the decorated-call
  activation `Timeout.call` (via `Timeout.wrappedRun`), and the async
  activation `Timeout.aenter`/`Timeout.aexit`.
-/

namespace MySignals

/-- A Python exception as far as the guard can distinguish them:
the guard's own `Timeout.TimeoutException`, or any other exception
(tagged with a code so distinct foreign errors stay distinct). -/
inductive Exc where
  | timeoutException
  | other (code : Nat)
deriving DecidableEq

/-- State of the process-wide expiry-signal source (`signal.alarm`):
`pending` is the number of seconds until the scheduled SIGALRM is
delivered, with `0` meaning no alarm is scheduled. -/
structure TimerState where
  pending : Nat
deriving DecidableEq

/-- `signal.alarm sec`: schedules a one-shot SIGALRM in `sec` seconds,
replacing whatever alarm was previously scheduled; `signal.alarm 0`
cancels any pending alarm and schedules none. -/
def signal_alarm (sec : Nat) (_s : TimerState) : TimerState :=
  ⟨sec⟩

/-- The `Timeout` class configuration: `__init__(self, sec: int,
is_rising: bool = False)` stores both arguments unchanged. -/
structure Timeout where
  timer_sec : Int
  is_rising : Bool
deriving DecidableEq

/-- A guarded unit of synchronous work: `dur` is the time (seconds after
entry) at which the work would finish if never interrupted, and `outcome`
is what it would then do — return a value, or raise an exception. -/
structure Work (α : Type) where
  dur : Nat
  outcome : Except Exc α

/-- `Timeout.__enter__`: installs `handler_alarm` on SIGALRM and runs
`signal.alarm(self.timer_sec)`. -/
def Timeout.enter (t : Timeout) (s : TimerState) : TimerState :=
  signal_alarm t.timer_sec.toNat s

/-- `Timeout.__exit__(exc_type, exc_val, exc_tb)`: on a clean exit
(`exc_type is None`) it runs `signal.alarm(0)`; on the guard's own
`TimeoutException` it returns `not self.is_rising` (the suppression flag);
on any other exception it falls through, returning `None` (falsy) and —
notably — not touching the alarm. The returned `Bool` is the truthiness
of `__exit__`'s return value, i.e. whether the exception is suppressed. -/
def Timeout.exit (t : Timeout) (exc : Option Exc) (s : TimerState) :
    Bool × TimerState :=
  match exc with
  | none => (false, signal_alarm 0 s)
  | some Exc.timeoutException => (!t.is_rising, s)
  | some _ => (false, s)

/-- Running the guarded body under the armed timer: if an alarm is
pending (`0 < pending`) and its deadline arrives no later than the work
finishes (`pending ≤ dur`), `handler_alarm` raises `TimeoutException`
inside the body and the one-shot alarm is consumed; otherwise the work
reaches its own outcome with the timer untouched. -/
def runBody {α : Type} (s : TimerState) (w : Work α) :
    Except Exc α × TimerState :=
  if 0 < s.pending ∧ s.pending ≤ w.dur then
    (Except.error Exc.timeoutException, ⟨0⟩)
  else
    (w.outcome, s)

/-- Caller-visible result of a `with Timeout(...)` block: `res` is the
value the block produced (`none` when the body never reached its result,
i.e. the caller's variable stays unset/`None`), `exc` is the exception
escaping to the caller (if any), and `timer` the alarm state handed back. -/
structure CMResult (α : Type) where
  res : Option α
  exc : Option Exc
  timer : TimerState
deriving DecidableEq

/-- One context-manager activation `with Timeout(sec, is_rising): body`:
enter (arm), run the body under the timer, then `__exit__`; a raised
exception escapes to the caller unless `__exit__` returned truthy. -/
def Timeout.runWith {α : Type} (t : Timeout) (w : Work α) (s0 : TimerState) :
    CMResult α :=
  match runBody (t.enter s0) w with
  | (Except.ok v, s2) =>
      { res := some v, exc := none, timer := (t.exit none s2).2 }
  | (Except.error e, s2) =>
      { res := none,
        exc := if (t.exit (some e) s2).1 then none else some e,
        timer := (t.exit (some e) s2).2 }

/-- Caller-visible result of one decorated call `Timeout(...)(f)(x)`:
the wrapped function's return value (`none` is Python's `None`), the
exception it raises to its caller (if any), and the alarm state. -/
structure CallResult (α : Type) where
  ret : Option α
  exc : Option Exc
  timer : TimerState
deriving DecidableEq

/-- The body of `wrapped` in `Timeout.__call__`:
`try: with self: return func(...)`\
`except Timeout.TimeoutException: if self.is_rising: raise`.
If the `with` block completes, `wrapped` returns the block's value (or
`None` when the body was interrupted and suppressed); a `TimeoutException`
escaping the `with` is re-raised when `is_rising` and swallowed otherwise;
any other exception propagates unchanged. -/
def Timeout.wrappedRun {α : Type} (t : Timeout) (w : Work α)
    (s0 : TimerState) : CallResult α :=
  match t.runWith w s0 with
  | { res := r, exc := none, timer := s } =>
      { ret := r, exc := none, timer := s }
  | { res := _, exc := some Exc.timeoutException, timer := s } =>
      if t.is_rising then
        { ret := none, exc := some Exc.timeoutException, timer := s }
      else
        { ret := none, exc := none, timer := s }
  | { res := _, exc := some e, timer := s } =>
      { ret := none, exc := some e, timer := s }

/-- `Timeout.__call__(func)` produces `wrapped`, which takes the same
arguments as `func` and passes them through: calling the wrapped function
at argument `x` runs one fresh guard activation around `func x`. -/
def Timeout.call {α β : Type} (t : Timeout) (f : β → Work α) (x : β)
    (s0 : TimerState) : CallResult α :=
  t.wrappedRun (f x) s0

/-- Status of an asyncio task in the guarded group. -/
inductive TaskStatus where
  | pending
  | completed
  | canceled
deriving DecidableEq

/-- An asyncio task: how long it sleeps and its current status. -/
structure Task where
  sleep : Nat
  status : TaskStatus
deriving DecidableEq

/-- State visible to the async activation: the shared alarm source plus
the group of concurrently scheduled tasks. -/
structure AsyncState where
  timer : TimerState
  tasks : List Task
deriving DecidableEq

/-- `Timeout.__aenter__`: `self.__enter__()` — arms the same SIGALRM
source; it has no access to any task. -/
def Timeout.aenter (t : Timeout) (s : AsyncState) : AsyncState :=
  { s with timer := t.enter s.timer }

/-- `Timeout.__aexit__`: `return self.__exit__(exc_type, exc_val,
exc_tb)` — delegates to the synchronous exit; it has no access to any
task. -/
def Timeout.aexit (t : Timeout) (exc : Option Exc) (s : AsyncState) :
    Bool × AsyncState :=
  ((t.exit exc s.timer).1, { s with timer := (t.exit exc s.timer).2 })

/-! ### Characterization lemmas for the three body outcomes -/

/-- If the deadline elapses while the body runs, the body is interrupted
by `TimeoutException`, the one-shot alarm is consumed, and `__exit__`
suppresses the exception exactly when `is_rising` is false. -/
theorem runWith_fired {α : Type} (t : Timeout) (w : Work α) (s0 : TimerState)
    (h1 : 0 < t.timer_sec.toNat) (h2 : t.timer_sec.toNat ≤ w.dur) :
    t.runWith w s0 =
      { res := none,
        exc := if t.is_rising then some Exc.timeoutException else none,
        timer := ⟨0⟩ } := by
  simp only [Timeout.runWith, Timeout.enter, signal_alarm, runBody]
  rw [if_pos ⟨h1, h2⟩]
  cases hr : t.is_rising <;> simp [Timeout.exit, hr]

/-- If the body finishes before the deadline with a return value, the
alarm is canceled and the value handed back unchanged. -/
theorem runWith_completed {α : Type} (t : Timeout) (w : Work α)
    (s0 : TimerState) (v : α)
    (h : ¬(0 < t.timer_sec.toNat ∧ t.timer_sec.toNat ≤ w.dur))
    (hok : w.outcome = Except.ok v) :
    t.runWith w s0 = { res := some v, exc := none, timer := ⟨0⟩ } := by
  simp only [Timeout.runWith, Timeout.enter, signal_alarm, runBody]
  rw [if_neg h, hok]
  simp [Timeout.exit, signal_alarm]

/-- If the body itself raises before the deadline, `__exit__` leaves the
alarm pending; a `TimeoutException` raised by the body is suppressed per
policy, any other exception escapes unchanged. -/
theorem runWith_raised {α : Type} (t : Timeout) (w : Work α)
    (s0 : TimerState) (e : Exc)
    (h : ¬(0 < t.timer_sec.toNat ∧ t.timer_sec.toNat ≤ w.dur))
    (herr : w.outcome = Except.error e) :
    t.runWith w s0 =
      { res := none,
        exc := if e = Exc.timeoutException ∧ !t.is_rising then none else some e,
        timer := ⟨t.timer_sec.toNat⟩ } := by
  obtain ⟨wd, wo⟩ := w
  simp only at herr
  subst herr
  simp only [Timeout.runWith, Timeout.enter, signal_alarm, runBody]
  rw [if_neg h]
  cases e with
  | timeoutException => cases hr : t.is_rising <;> simp [Timeout.exit, hr]
  | other c => simp [Timeout.exit]

/-- Decorator counterpart of `runWith_fired`: a timed-out decorated call
returns `None` under SUPPRESS and raises `TimeoutException` under
PROPAGATE. -/
theorem wrappedRun_fired {α : Type} (t : Timeout) (w : Work α)
    (s0 : TimerState)
    (h1 : 0 < t.timer_sec.toNat) (h2 : t.timer_sec.toNat ≤ w.dur) :
    t.wrappedRun w s0 =
      if t.is_rising then
        { ret := none, exc := some Exc.timeoutException, timer := ⟨0⟩ }
      else
        { ret := none, exc := none, timer := ⟨0⟩ } := by
  simp only [Timeout.wrappedRun, runWith_fired t w s0 h1 h2]
  cases hr : t.is_rising <;> simp [hr]

/-- Decorator counterpart of `runWith_completed`: a decorated call that
finishes in time returns the work's value unchanged with the alarm
canceled. -/
theorem wrappedRun_completed {α : Type} (t : Timeout) (w : Work α)
    (s0 : TimerState) (v : α)
    (h : ¬(0 < t.timer_sec.toNat ∧ t.timer_sec.toNat ≤ w.dur))
    (hok : w.outcome = Except.ok v) :
    t.wrappedRun w s0 = { ret := some v, exc := none, timer := ⟨0⟩ } := by
  simp only [Timeout.wrappedRun, runWith_completed t w s0 v h hok]

/-- Decorator counterpart of `runWith_raised`: an exception the work
itself raises before the deadline leaves the alarm pending; a
`TimeoutException` is swallowed (returning `None`) unless `is_rising`,
any other exception propagates unchanged. -/
theorem wrappedRun_raised {α : Type} (t : Timeout) (w : Work α)
    (s0 : TimerState) (e : Exc)
    (h : ¬(0 < t.timer_sec.toNat ∧ t.timer_sec.toNat ≤ w.dur))
    (herr : w.outcome = Except.error e) :
    t.wrappedRun w s0 =
      { ret := none,
        exc := if e = Exc.timeoutException ∧ !t.is_rising then none else some e,
        timer := ⟨t.timer_sec.toNat⟩ } := by
  simp only [Timeout.wrappedRun, runWith_raised t w s0 e h herr]
  cases e with
  | timeoutException => cases hr : t.is_rising <;> simp [hr]
  | other c => simp

/-! ### Claims -/

/-- C1 (counterexample): the claim that "on every exit path the
process-wide expiry-signal source is restored to a neutral/disarmed state
(any pending alarm is canceled)" is false: with `Timeout(5)` and a body
that raises a foreign error after 1 second, `__exit__` propagates the
error to the caller while leaving the 5-second alarm still pending. -/
theorem timeout_c1_counterexample :
    ((Timeout.mk 5 false).runWith
        (Work.mk 1 (Except.error (Exc.other 7) : Except Exc Nat))
        (TimerState.mk 0)).exc
      = some (Exc.other 7) ∧
    ¬ ((Timeout.mk 5 false).runWith
        (Work.mk 1 (Except.error (Exc.other 7) : Except Exc Nat))
        (TimerState.mk 0)).timer.pending
      = 0 := by
  decide

/-- C1 (amended): the alarm source is neutral after an activation exactly
on the normal-completion path (where `__exit__` runs `signal.alarm(0)`)
and on the fired path (where the one-shot alarm was consumed when it
fired); but when the guarded work itself raises any exception — in
particular an error other than the guard's own `TimeoutException` —
before the deadline, `__exit__` leaves the alarm pending at its full
`timer_sec` when control returns to the caller. -/
theorem timeout_c1_amended {α : Type} (t : Timeout) (w : Work α)
    (s0 : TimerState) :
    (t.runWith w s0).timer.pending =
      if 0 < t.timer_sec.toNat ∧ t.timer_sec.toNat ≤ w.dur then 0
      else
        match w.outcome with
        | Except.ok _ => 0
        | Except.error _ => t.timer_sec.toNat := by
  obtain ⟨wd, wo⟩ := w
  by_cases hf : 0 < t.timer_sec.toNat ∧ t.timer_sec.toNat ≤ wd
  · rw [runWith_fired t ⟨wd, wo⟩ s0 hf.1 hf.2, if_pos hf]
  · cases wo with
    | ok v =>
        rw [runWith_completed t ⟨wd, Except.ok v⟩ s0 v hf rfl, if_neg hf]
    | error e =>
        rw [runWith_raised t ⟨wd, Except.error e⟩ s0 e hf rfl, if_neg hf]

/-- C2: for every positive duration `d` and guarded work taking longer
than `d`, under SUPPRESS (`is_rising = false`) both the context-manager
activation and the decorated call yield an empty result (`None`) and no
`TimeoutException` reaches the activating caller. -/
theorem timeout_c2_suppress_timeout {α β : Type} (d w : Nat)
    (o : Except Exc α) (f : β → Work α) (x : β) (s0 s1 : TimerState)
    (hd : 0 < d) (hw : d < w) (hf : d < (f x).dur) :
    ((Timeout.mk d false).runWith (Work.mk w o) s0).res = none ∧
    ((Timeout.mk d false).runWith (Work.mk w o) s0).exc = none ∧
    ((Timeout.mk d false).call f x s1).ret = none ∧
    ((Timeout.mk d false).call f x s1).exc = none := by
  rw [runWith_fired (Timeout.mk d false) (Work.mk w o) s0
        (by simpa using hd) (by simpa using hw.le),
      Timeout.call,
      wrappedRun_fired (Timeout.mk d false) (f x) s1
        (by simpa using hd) (by simpa using hf.le)]
  simp

/-- C2 witness: `duration = 1`, work sleeping `2`, SUPPRESS — both
adapters yield `None` and no exception. -/
theorem timeout_c2_suppress_timeout_witness :
    ((Timeout.mk 1 false).runWith
        (Work.mk 2 (Except.ok (0 : Nat))) (TimerState.mk 0)).res = none ∧
    ((Timeout.mk 1 false).runWith
        (Work.mk 2 (Except.ok (0 : Nat))) (TimerState.mk 0)).exc = none ∧
    ((Timeout.mk 1 false).call
        (fun _ : Unit => Work.mk 2 (Except.ok (0 : Nat))) ()
        (TimerState.mk 0)).ret = none ∧
    ((Timeout.mk 1 false).call
        (fun _ : Unit => Work.mk 2 (Except.ok (0 : Nat))) ()
        (TimerState.mk 0)).exc = none :=
  timeout_c2_suppress_timeout 1 2 (Except.ok 0)
    (fun _ : Unit => Work.mk 2 (Except.ok 0)) () (TimerState.mk 0)
    (TimerState.mk 0) (by decide) (by decide) (by decide)

/-- C3: for every positive duration `d` and guarded work taking longer
than `d`, under PROPAGATE (`is_rising = true`) both the context-manager
activation and the decorated call raise `TimeoutException` to the
activating caller, which observes no partial result. -/
theorem timeout_c3_propagate_timeout {α β : Type} (d w : Nat)
    (o : Except Exc α) (f : β → Work α) (x : β) (s0 s1 : TimerState)
    (hd : 0 < d) (hw : d < w) (hf : d < (f x).dur) :
    ((Timeout.mk d true).runWith (Work.mk w o) s0).exc
        = some Exc.timeoutException ∧
    ((Timeout.mk d true).runWith (Work.mk w o) s0).res = none ∧
    ((Timeout.mk d true).call f x s1).exc = some Exc.timeoutException ∧
    ((Timeout.mk d true).call f x s1).ret = none := by
  rw [runWith_fired (Timeout.mk d true) (Work.mk w o) s0
        (by simpa using hd) (by simpa using hw.le),
      Timeout.call,
      wrappedRun_fired (Timeout.mk d true) (f x) s1
        (by simpa using hd) (by simpa using hf.le)]
  simp

/-- C3 witness: `duration = 1`, work sleeping `2`, PROPAGATE — both
adapters raise `TimeoutException` and yield no result. -/
theorem timeout_c3_propagate_timeout_witness :
    ((Timeout.mk 1 true).runWith
        (Work.mk 2 (Except.ok (0 : Nat))) (TimerState.mk 0)).exc
        = some Exc.timeoutException ∧
    ((Timeout.mk 1 true).runWith
        (Work.mk 2 (Except.ok (0 : Nat))) (TimerState.mk 0)).res = none ∧
    ((Timeout.mk 1 true).call
        (fun _ : Unit => Work.mk 2 (Except.ok (0 : Nat))) ()
        (TimerState.mk 0)).exc = some Exc.timeoutException ∧
    ((Timeout.mk 1 true).call
        (fun _ : Unit => Work.mk 2 (Except.ok (0 : Nat))) ()
        (TimerState.mk 0)).ret = none :=
  timeout_c3_propagate_timeout 1 2 (Except.ok 0)
    (fun _ : Unit => Work.mk 2 (Except.ok 0)) () (TimerState.mk 0)
    (TimerState.mk 0) (by decide) (by decide) (by decide)

/-- C4: for every duration `d` and guarded work completing with a value
in less than `d`, the guard disarms (final pending alarm is `0`) and the
work's result is returned unmodified, for both policies and for both the
context-manager and decorator adapters. -/
theorem timeout_c4_in_time {α β : Type} (d w : Nat) (v u : α) (r : Bool)
    (f : β → Work α) (x : β) (s0 s1 : TimerState)
    (hw : w < d) (hfd : (f x).dur < d) (hfo : (f x).outcome = Except.ok u) :
    ((Timeout.mk d r).runWith (Work.mk w (Except.ok v)) s0).res = some v ∧
    ((Timeout.mk d r).runWith (Work.mk w (Except.ok v)) s0).exc = none ∧
    ((Timeout.mk d r).runWith (Work.mk w (Except.ok v)) s0).timer.pending = 0 ∧
    ((Timeout.mk d r).call f x s1).ret = some u ∧
    ((Timeout.mk d r).call f x s1).exc = none ∧
    ((Timeout.mk d r).call f x s1).timer.pending = 0 := by
  rw [runWith_completed (Timeout.mk d r) (Work.mk w (Except.ok v)) s0 v
        (by simp; omega) rfl,
      Timeout.call,
      wrappedRun_completed (Timeout.mk d r) (f x) s1 u
        (by simp; omega) hfo]
  simp

/-- C4 witness: `duration = 1`, work finishing at `0` with value `42`,
PROPAGATE policy — both adapters return `42`, no exception, alarm
canceled. -/
theorem timeout_c4_in_time_witness :
    ((Timeout.mk 1 true).runWith
        (Work.mk 0 (Except.ok (42 : Nat))) (TimerState.mk 0)).res = some 42 ∧
    ((Timeout.mk 1 true).runWith
        (Work.mk 0 (Except.ok (42 : Nat))) (TimerState.mk 0)).exc = none ∧
    ((Timeout.mk 1 true).runWith
        (Work.mk 0 (Except.ok (42 : Nat))) (TimerState.mk 0)).timer.pending
        = 0 ∧
    ((Timeout.mk 1 true).call
        (fun _ : Unit => Work.mk 0 (Except.ok (42 : Nat))) ()
        (TimerState.mk 0)).ret = some 42 ∧
    ((Timeout.mk 1 true).call
        (fun _ : Unit => Work.mk 0 (Except.ok (42 : Nat))) ()
        (TimerState.mk 0)).exc = none ∧
    ((Timeout.mk 1 true).call
        (fun _ : Unit => Work.mk 0 (Except.ok (42 : Nat))) ()
        (TimerState.mk 0)).timer.pending = 0 :=
  timeout_c4_in_time 1 0 42 42 true
    (fun _ : Unit => Work.mk 0 (Except.ok 42)) () (TimerState.mk 0)
    (TimerState.mk 0) (by decide) (by decide) rfl

/-- C5: an error other than the guard's own `TimeoutException`, raised by
the guarded work itself (hence before any deadline interruption), reaches
the activating caller unchanged under either policy, through both the
context-manager and the decorator adapters. -/
theorem timeout_c5_foreign_error {α β : Type} (d w n m : Nat) (r : Bool)
    (f : β → Work α) (x : β) (s0 s1 : TimerState)
    (hw : w < d ∨ d = 0) (hfx : (f x).dur < d ∨ d = 0)
    (hfo : (f x).outcome = Except.error (Exc.other m)) :
    ((Timeout.mk d r).runWith
        (Work.mk w (Except.error (Exc.other n) : Except Exc α)) s0).exc
      = some (Exc.other n) ∧
    ((Timeout.mk d r).runWith
        (Work.mk w (Except.error (Exc.other n) : Except Exc α)) s0).res = none ∧
    ((Timeout.mk d r).call f x s1).exc = some (Exc.other m) ∧
    ((Timeout.mk d r).call f x s1).ret = none := by
  rw [runWith_raised (Timeout.mk d r)
        (Work.mk w (Except.error (Exc.other n) : Except Exc α)) s0
        (Exc.other n)
        (by simp; omega) rfl,
      Timeout.call,
      wrappedRun_raised (Timeout.mk d r) (f x) s1 (Exc.other m)
        (by simp; omega) hfo]
  simp

/-- C5 witness: `Timeout(5)` around work raising foreign error `7` after
1 second (decorator: error `9`) — the error reaches the caller unchanged
and no value is produced. -/
theorem timeout_c5_foreign_error_witness :
    ((Timeout.mk 5 false).runWith
        (Work.mk 1 (Except.error (Exc.other 7) : Except Exc Nat))
        (TimerState.mk 0)).exc
      = some (Exc.other 7) ∧
    ((Timeout.mk 5 false).runWith
        (Work.mk 1 (Except.error (Exc.other 7) : Except Exc Nat))
        (TimerState.mk 0)).res
      = none ∧
    ((Timeout.mk 5 false).call
        (fun _ : Unit => Work.mk 1 (Except.error (Exc.other 9) : Except Exc Nat))
        () (TimerState.mk 0)).exc = some (Exc.other 9) ∧
    ((Timeout.mk 5 false).call
        (fun _ : Unit => Work.mk 1 (Except.error (Exc.other 9) : Except Exc Nat))
        () (TimerState.mk 0)).ret = none :=
  timeout_c5_foreign_error 5 1 7 9 false
    (fun _ : Unit => Work.mk 1 (Except.error (Exc.other 9) : Except Exc Nat))
    () (TimerState.mk 0) (TimerState.mk 0) (Or.inl (by decide))
    (Or.inl (by decide)) rfl

/-- C6 (counterexample): the claim that on expiry the guard cancels every
not-yet-completed task in the group is false: around a group containing a
single still-pending task sleeping 2 under `Timeout(1)`, arming and then
exiting on the guard's own expiry leaves the task exactly as it was —
still pending, not marked canceled. -/
theorem timeout_c6_counterexample :
    ((((Timeout.mk 1 false).aexit (some Exc.timeoutException)
        ((Timeout.mk 1 false).aenter
          (AsyncState.mk (TimerState.mk 0)
            [Task.mk 2 TaskStatus.pending]))).2).tasks.all
      (fun tk => tk.status == TaskStatus.canceled)) = false ∧
    (((Timeout.mk 1 false).aexit (some Exc.timeoutException)
        ((Timeout.mk 1 false).aenter
          (AsyncState.mk (TimerState.mk 0)
            [Task.mk 2 TaskStatus.pending]))).2).tasks
      = [Task.mk 2 TaskStatus.pending] := by
  decide

/-- C6 (amended): the async activation merely delegates to the
synchronous signal-based enter/exit — `__aenter__` arms the shared alarm
and `__aexit__` applies the synchronous exit policy to it; the guard
itself cancels no task and constructs no outcome set (in the repository's
async test, canceling the pending tasks and collecting the
completed/canceled outcome pairs is done by the caller's own code inside
the guarded block, not by the guard). -/
theorem timeout_c6_amended (t : Timeout) (exc : Option Exc)
    (s : AsyncState) :
    (t.aenter s).tasks = s.tasks ∧
    (t.aenter s).timer = t.enter s.timer ∧
    ((t.aexit exc s).2).tasks = s.tasks ∧
    ((t.aexit exc s).2).timer = (t.exit exc s.timer).2 ∧
    (t.aexit exc s).1 = (t.exit exc s.timer).1 :=
  ⟨rfl, rfl, rfl, rfl, rfl⟩

/-- C7: the wrapped callable produced by the decorator takes the same
argument as the wrapped function and re-arms a fresh activation on each
invocation: entering always sets the pending alarm to the configured
duration, the outcome of a decorated call is independent of whatever
alarm state it starts from, and a second sequential call after a first
one behaves exactly as a call from a clean state — one configured guard
supports many sequential decorated calls. -/
theorem timeout_c7_decorator_rearms {α β : Type} (t : Timeout)
    (f : β → Work α) (x y : β) (s s' : TimerState) :
    (t.enter s).pending = t.timer_sec.toNat ∧
    t.call f x s = t.call f x s' ∧
    t.call f y ((t.call f x s).timer) = t.call f y s' :=
  ⟨rfl, rfl, rfl⟩

/-- C8: disarm/cancel operations are idempotent no-ops on a neutral
timer: `signal.alarm(0)` on a state with no pending alarm (already
disarmed, already fired, or already canceled) leaves the state unchanged,
a clean `__exit__` on such a state changes nothing, a consumed alarm can
never fire again (no double-fire), and canceling twice equals canceling
once. -/
theorem timeout_c8_idempotent {α : Type} (t : Timeout) (s s' : TimerState)
    (w : Work α) (h : s.pending = 0) :
    signal_alarm 0 s = s ∧
    (t.exit none s).2 = s ∧
    runBody s w = (w.outcome, s) ∧
    signal_alarm 0 (signal_alarm 0 s') = signal_alarm 0 s' := by
  obtain ⟨p⟩ := s
  simp only at h
  subst h
  refine ⟨rfl, rfl, ?_, rfl⟩
  simp [runBody]

/-- C8 witness: on the neutral timer, canceling and clean exit are
no-ops and a work item running under it is never interrupted. -/
theorem timeout_c8_idempotent_witness :
    signal_alarm 0 (TimerState.mk 0) = TimerState.mk 0 ∧
    ((Timeout.mk 1 false).exit none (TimerState.mk 0)).2 = TimerState.mk 0 ∧
    runBody (TimerState.mk 0) (Work.mk 2 (Except.ok (0 : Nat)))
      = (Except.ok 0, TimerState.mk 0) ∧
    signal_alarm 0 (signal_alarm 0 (TimerState.mk 3))
      = signal_alarm 0 (TimerState.mk 3) :=
  timeout_c8_idempotent (Timeout.mk 1 false) (TimerState.mk 0)
    (TimerState.mk 3) (Work.mk 2 (Except.ok 0)) rfl

/-- C9: the guard recognizes its expiry solely by exception type: under
SUPPRESS, a `TimeoutException` raised by the guarded work itself before
the deadline — the timer never fired — is absorbed (no exception, empty
result) through both adapters, and the caller-visible result and
exception are exactly those of an activation whose deadline actually
elapsed. -/
theorem timeout_c9_type_based {α β : Type} (d w w2 : Nat)
    (o : Except Exc α) (f : β → Work α) (x : β) (s0 s1 : TimerState)
    (hw : w < d) (hw2 : d < w2) (hfx : (f x).dur < d)
    (hfo : (f x).outcome = Except.error Exc.timeoutException) :
    ((Timeout.mk d false).runWith
        (Work.mk w (Except.error Exc.timeoutException : Except Exc α))
        s0).res = none ∧
    ((Timeout.mk d false).runWith
        (Work.mk w (Except.error Exc.timeoutException : Except Exc α))
        s0).exc = none ∧
    ((Timeout.mk d false).runWith
        (Work.mk w (Except.error Exc.timeoutException : Except Exc α))
        s0).res
      = ((Timeout.mk d false).runWith (Work.mk w2 o) s0).res ∧
    ((Timeout.mk d false).runWith
        (Work.mk w (Except.error Exc.timeoutException : Except Exc α))
        s0).exc
      = ((Timeout.mk d false).runWith (Work.mk w2 o) s0).exc ∧
    ((Timeout.mk d false).call f x s1).ret = none ∧
    ((Timeout.mk d false).call f x s1).exc = none := by
  rw [runWith_raised (Timeout.mk d false)
        (Work.mk w (Except.error Exc.timeoutException : Except Exc α)) s0
        Exc.timeoutException (by simp; omega) rfl,
      runWith_fired (Timeout.mk d false) (Work.mk w2 o) s0
        (by simp; omega) (by simp; omega),
      Timeout.call,
      wrappedRun_raised (Timeout.mk d false) (f x) s1
        Exc.timeoutException (by simp; omega) hfo]
  simp

/-- C9 witness: `Timeout(2)` under SUPPRESS, work raising
`TimeoutException` itself after 1 second — absorbed through both
adapters, indistinguishable from a real expiry at duration 2 against a
work sleeping 3. -/
theorem timeout_c9_type_based_witness :
    ((Timeout.mk 2 false).runWith
        (Work.mk 1 (Except.error Exc.timeoutException : Except Exc Nat))
        (TimerState.mk 0)).res = none ∧
    ((Timeout.mk 2 false).runWith
        (Work.mk 1 (Except.error Exc.timeoutException : Except Exc Nat))
        (TimerState.mk 0)).exc = none ∧
    ((Timeout.mk 2 false).runWith
        (Work.mk 1 (Except.error Exc.timeoutException : Except Exc Nat))
        (TimerState.mk 0)).res
      = ((Timeout.mk 2 false).runWith
          (Work.mk 3 (Except.ok (0 : Nat))) (TimerState.mk 0)).res ∧
    ((Timeout.mk 2 false).runWith
        (Work.mk 1 (Except.error Exc.timeoutException : Except Exc Nat))
        (TimerState.mk 0)).exc
      = ((Timeout.mk 2 false).runWith
          (Work.mk 3 (Except.ok (0 : Nat))) (TimerState.mk 0)).exc ∧
    ((Timeout.mk 2 false).call
        (fun _ : Unit =>
          Work.mk 1 (Except.error Exc.timeoutException : Except Exc Nat))
        () (TimerState.mk 0)).ret = none ∧
    ((Timeout.mk 2 false).call
        (fun _ : Unit =>
          Work.mk 1 (Except.error Exc.timeoutException : Except Exc Nat))
        () (TimerState.mk 0)).exc = none :=
  timeout_c9_type_based 2 1 3 (Except.ok 0)
    (fun _ : Unit =>
      Work.mk 1 (Except.error Exc.timeoutException : Except Exc Nat))
    () (TimerState.mk 0) (TimerState.mk 0) (by decide) (by decide)
    (by decide) rfl

/-- C10: `__init__` stores any integer duration unvalidated, and for
duration `0` entering runs `signal.alarm(0)` — scheduling nothing and
canceling anything previously pending — so the guard never fires and the
guarded work runs to its own completion under either policy, through
both the context-manager and decorator adapters. -/
theorem timeout_c10_zero_duration {α : Type} (sec : Int) (r : Bool)
    (s s0 s1 : TimerState) (w : Nat) (v : α) :
    (Timeout.mk sec r).timer_sec = sec ∧
    (Timeout.mk sec r).is_rising = r ∧
    ((Timeout.mk 0 r).enter s).pending = 0 ∧
    ((Timeout.mk 0 r).runWith (Work.mk w (Except.ok v)) s0).res = some v ∧
    ((Timeout.mk 0 r).runWith (Work.mk w (Except.ok v)) s0).exc = none ∧
    ((Timeout.mk 0 r).call (fun _ : Unit => Work.mk w (Except.ok v)) ()
        s1).ret = some v ∧
    ((Timeout.mk 0 r).call (fun _ : Unit => Work.mk w (Except.ok v)) ()
        s1).exc = none := by
  rw [runWith_completed (Timeout.mk 0 r) (Work.mk w (Except.ok v)) s0 v
        (by simp) rfl,
      Timeout.call,
      wrappedRun_completed (Timeout.mk 0 r)
        (Work.mk w (Except.ok v)) s1 v (by simp) rfl]
  simp [Timeout.enter, signal_alarm]

end MySignals
